import Mathlib

/-!
Verification of the turn-taking interview controller in
`src/app/components/InterviewSession.tsx`.

The component's React state is embedded as the structure `SessionState`
(one field per `useState` hook).  Each event handler of the component
(`initializeInterview`, `handleTranscript`, `toggleListening`,
`handleEndInterview`) is embedded as a pure function from the state to the
new state together with the ordered list of calls made to the three
collaborating services (transcription, dialogue, speech output).  The
outcome of an awaited dialogue-service promise is passed in as an
`Except Unit String` parameter (`Except.error` models promise rejection),
so each handler is the atomic effect of one completed event, as the spec's
event-driven model prescribes.
-/

/-- Speaker tag of a conversation turn (`'user' | 'bot'` in the source). -/
inductive Speaker where
  | user
  | bot
deriving DecidableEq, Repr

/-- One conversation turn: `{ speaker, text }` in the source. -/
structure Turn where
  speaker : Speaker
  text : String
deriving DecidableEq, Repr

/-- The `userInfo` prop: `{ name, position, experience, additionalInfo }`. -/
structure UserInfo where
  name : String
  position : String
  experience : String
  additionalInfo : String
deriving DecidableEq, Repr

/-- Capability flags of the runtime environment, one per `speechService`
capability probe, plus the boolean result that
`speechService.startListening` returns. -/
structure Env where
  synthesisSupported : Bool
  recognitionSupported : Bool
  startListeningResult : Bool
deriving DecidableEq, Repr

/-- A call to one of the collaborating services (or the parent callback /
the console), recorded in the order the handler makes them. -/
inductive Call where
  | resetConversation
  | initWithUserInfo (u : UserInfo)
  | generateInitialQuestion
  | generateNextQuestion (text : String)
  | speak (text : String)
  | startListening
  | stopListening
  | speechSynthesisCancel
  | onEndInterview
  | consoleError
deriving DecidableEq, Repr

/-- The component's React state: one field per `useState` hook of
`InterviewSession` (the ref to the scroll container is layout-only and
omitted). -/
structure SessionState where
  isListening : Bool
  transcript : String
  botResponse : String
  conversation : List Turn
  isConnected : Bool
  isBotSpeaking : Bool
  isLoading : Bool
  activeMessageIndex : Nat
deriving DecidableEq, Repr

/-- Initial values of the `useState` hooks. -/
def initialState : SessionState :=
  { isListening := false
    transcript := ""
    botResponse := ""
    conversation := []
    isConnected := false
    isBotSpeaking := false
    isLoading := false
    activeMessageIndex := 0 }

/-- The spec's session status, derived from the boolean flags with the
priority order the component's render uses (`isBotSpeaking` first, then
`isLoading`, then `isListening`). -/
inductive Status where
  | idle
  | listening
  | processing
  | speaking
deriving DecidableEq, Repr

/-- Derive the spec-level status from the component state. -/
def status (s : SessionState) : Status :=
  if s.isBotSpeaking then Status.speaking
  else if s.isLoading then Status.processing
  else if s.isListening then Status.listening
  else Status.idle

/-- The fallback opening question built in the `catch` branch of
`initializeInterview` (line 70 of the source). -/
def fallbackQuestion (u : UserInfo) : String :=
  "Hello " ++ u.name ++ ", thanks for joining this interview for the " ++
    u.position ++ " position. Could you tell me about your background and experience?"

/-- Embedding of `initializeInterview` (lines 47-83).  `opening` is the
outcome of the awaited `openaiService.generateInitialQuestion()` promise.
Returns the state after the handler (including the `finally` block and
`setIsConnected(true)`) and the ordered service calls made. -/
def initInterview (env : Env) (u : UserInfo) (opening : Except Unit String)
    (s : SessionState) : SessionState × List Call :=
  let calls0 : List Call :=
    [Call.resetConversation, Call.initWithUserInfo u, Call.generateInitialQuestion]
  match opening with
  | Except.ok q =>
      if env.synthesisSupported then
        ({ s with botResponse := q
                  conversation := [⟨Speaker.bot, q⟩]
                  isBotSpeaking := true
                  isLoading := false
                  isConnected := true },
          calls0 ++ [Call.speak q])
      else
        ({ s with botResponse := q
                  conversation := [⟨Speaker.bot, q⟩]
                  isLoading := false
                  isConnected := true },
          calls0)
  | Except.error _ =>
      ({ s with botResponse := fallbackQuestion u
                conversation := [⟨Speaker.bot, fallbackQuestion u⟩]
                isLoading := false
                isConnected := true },
        calls0 ++ [Call.consoleError])

/-- Embedding of JavaScript `String.prototype.trim`: drop whitespace from
both ends.  (`!text.trim()` in the source is true exactly when the trimmed
string is empty.) -/
def jsTrim (s : String) : String :=
  String.mk (((s.data.dropWhile Char.isWhitespace).reverse.dropWhile Char.isWhitespace).reverse)

/-- Embedding of `handleTranscript` (lines 98-133).  `next` is the outcome
of the awaited `openaiService.generateNextQuestion(text)` promise. -/
def handleTranscript (env : Env) (next : Except Unit String) (text : String)
    (s : SessionState) : SessionState × List Call :=
  if jsTrim text = "" then (s, [])
  else
    let s1 : SessionState :=
      { s with transcript := text
               conversation := s.conversation ++ [⟨Speaker.user, text⟩] }
    let s2 : SessionState := if s.isListening then { s1 with isListening := false } else s1
    let stopCalls : List Call := if s.isListening then [Call.stopListening] else []
    match next with
    | Except.ok q =>
        if env.synthesisSupported then
          ({ s2 with botResponse := q
                     conversation := s2.conversation ++ [⟨Speaker.bot, q⟩]
                     isBotSpeaking := true
                     isLoading := false },
            stopCalls ++ [Call.generateNextQuestion text, Call.speak q])
        else
          ({ s2 with botResponse := q
                     conversation := s2.conversation ++ [⟨Speaker.bot, q⟩]
                     isLoading := false },
            stopCalls ++ [Call.generateNextQuestion text])
    | Except.error _ =>
        ({ s2 with isLoading := false },
          stopCalls ++ [Call.generateNextQuestion text, Call.consoleError])

/-- The canned transcript used when speech recognition is unsupported
(line 158 of the source). -/
def mockTranscript : String :=
  "I have 5 years of experience working with React and Next.js. I've built several enterprise applications and led teams of frontend developers."

/-- Delay in milliseconds before the canned transcript is delivered
(`setTimeout(..., 3000)`). -/
def mockDelayMs : Nat := 3000

/-- Embedding of `toggleListening` (lines 142-169).  The third component
records a scheduled `setTimeout` delivery (delay, transcript text) to
`handleTranscript`, used by the degraded (recognition-unsupported) branch. -/
def toggleListening (env : Env) (s : SessionState) :
    SessionState × List Call × Option (Nat × String) :=
  if s.isBotSpeaking || s.isLoading then (s, [], none)
  else if !s.isListening then
    if env.recognitionSupported then
      ({ s with isListening := env.startListeningResult }, [Call.startListening], none)
    else
      ({ s with isListening := true }, [], some (mockDelayMs, mockTranscript))
  else
    if env.recognitionSupported then
      ({ s with isListening := false }, [Call.stopListening], none)
    else
      ({ s with isListening := false }, [], none)

/-- Embedding of `handleEndInterview` (lines 172-182): it mutates no
component state and makes its cleanup calls before invoking the
`onEndInterview` parent callback. -/
def handleEndInterview (env : Env) (s : SessionState) : SessionState × List Call :=
  (s, [Call.stopListening] ++
        (if env.synthesisSupported then [Call.speechSynthesisCancel] else []) ++
        [Call.onEndInterview])

/-- Embedding of `const activeMessage = conversation[activeMessageIndex] || null`
(line 185): an out-of-range JavaScript index yields `undefined`, coerced to
`null`, i.e. `none`. -/
def activeMessage (conversation : List Turn) (activeMessageIndex : Nat) : Option Turn :=
  conversation[activeMessageIndex]?

/-- The render shows the current-turn panel exactly when `activeMessage`
is non-null (`{activeMessage && ...}`, line 204). -/
def showMessagePanel (conversation : List Turn) (activeMessageIndex : Nat) : Bool :=
  (activeMessage conversation activeMessageIndex).isSome

/-- Embedding of the effect at lines 32-36: whenever the conversation is
non-empty, the active index is moved to the last turn. -/
def syncActiveMessageIndex (s : SessionState) : SessionState :=
  if s.conversation.length > 0 then
    { s with activeMessageIndex := s.conversation.length - 1 }
  else s

/-- The set of indices a user can select by clicking a history pill
(lines 220-235): pills render only when `conversation.length > 1`, one
per element of `conversation`, and pill `i` calls
`setActiveMessageIndex(i)`. -/
def pillIndices (conversation : List Turn) : List Nat :=
  if conversation.length > 1 then List.range conversation.length else []

/-- Effect of clicking pill `i`: accepted only if the pill is rendered. -/
def clickPill (i : Nat) (s : SessionState) : SessionState :=
  if i ∈ pillIndices s.conversation then { s with activeMessageIndex := i } else s

/-- The opening turn text actually produced by `initInterview` for a given
promise outcome. -/
def openingText (u : UserInfo) : Except Unit String → String
  | Except.ok q => q
  | Except.error _ => fallbackQuestion u

/-- The other speaker. -/
def otherSpeaker : Speaker → Speaker
  | Speaker.user => Speaker.bot
  | Speaker.bot => Speaker.user

/-- `alternates e l` holds when the speakers of `l` strictly alternate,
the first being `e`. -/
def alternates (e : Speaker) : List Turn → Bool
  | [] => true
  | t :: rest => t.speaker == e && alternates (otherSpeaker e) rest

/-- The two turns appended by one successful transcription→dialogue cycle
with user text `c.1` and dialogue response `c.2`. -/
def cycleTurns : List (String × String) → List Turn
  | [] => []
  | c :: rest => ⟨Speaker.user, c.1⟩ :: ⟨Speaker.bot, c.2⟩ :: cycleTurns rest

/-- Run a sequence of successful transcription→dialogue cycles: each cycle
delivers non-empty user text `c.1` to `handleTranscript` with the dialogue
service resolving to `c.2`. -/
def runCycles (env : Env) (cycles : List (String × String)) (s : SessionState) :
    SessionState :=
  cycles.foldl (fun st c => (handleTranscript env (Except.ok c.2) c.1 st).1) s

/-- A concrete environment with every capability available. -/
def envAll : Env := ⟨true, true, true⟩

/-- A concrete environment without speech synthesis. -/
def envNoSynth : Env := ⟨false, true, true⟩

/-- A concrete environment without speech recognition. -/
def envNoRecog : Env := ⟨true, false, true⟩

/-- The profile of the spec's example scenario. -/
def uAna : UserInfo := ⟨"Ana", "Backend Engineer", "5 years", "none"⟩

/-- A concrete state at the moment the user ends the session: listening,
with the opening question already in the conversation. -/
def teardownState : SessionState :=
  { initialState with
      isListening := true
      conversation := [⟨Speaker.bot, "Q0"⟩] }

theorem handleTranscript_ok_conversation (env : Env) (q text : String) (s : SessionState)
    (ht : ¬ jsTrim text = "") :
    ((handleTranscript env (Except.ok q) text s).1).conversation =
      s.conversation ++ [⟨Speaker.user, text⟩, ⟨Speaker.bot, q⟩] := by
  unfold handleTranscript
  cases h : s.isListening <;> cases hs : env.synthesisSupported <;>
    simp [ht, h, hs]

theorem runCycles_conversation (env : Env) (cycles : List (String × String))
    (s : SessionState) (hne : ∀ c ∈ cycles, ¬ jsTrim (Prod.fst c) = "") :
    (runCycles env cycles s).conversation = s.conversation ++ cycleTurns cycles := by
  induction cycles generalizing s with
  | nil => simp [runCycles, cycleTurns]
  | cons c rest ih =>
      have hc : ¬ jsTrim (Prod.fst c) = "" := hne c (List.mem_cons_self c rest)
      have hrest : ∀ d ∈ rest, ¬ jsTrim (Prod.fst d) = "" :=
        fun d hd => hne d (List.mem_cons_of_mem c hd)
      have hstep := handleTranscript_ok_conversation env c.2 c.1 s hc
      calc (runCycles env (c :: rest) s).conversation
          = (runCycles env rest ((handleTranscript env (Except.ok c.2) c.1 s).1)).conversation := by
            simp [runCycles]
        _ = ((handleTranscript env (Except.ok c.2) c.1 s).1).conversation ++ cycleTurns rest :=
            ih _ hrest
        _ = s.conversation ++ cycleTurns (c :: rest) := by
            rw [hstep]; simp [cycleTurns]

theorem cycleTurns_length (cycles : List (String × String)) :
    (cycleTurns cycles).length = 2 * cycles.length := by
  induction cycles with
  | nil => simp [cycleTurns]
  | cons c rest ih => simp [cycleTurns, ih]; ring

theorem alternates_user_cycleTurns (cycles : List (String × String)) :
    alternates Speaker.user (cycleTurns cycles) = true := by
  induction cycles with
  | nil => simp [cycleTurns, alternates]
  | cons c rest ih => simp [cycleTurns, alternates, otherSpeaker, ih]

theorem initInterview_conversation (env : Env) (u : UserInfo)
    (opening : Except Unit String) (s : SessionState) :
    (initInterview env u opening s).1.conversation =
      [⟨Speaker.bot, openingText u opening⟩] := by
  cases opening with
  | ok q => cases h : env.synthesisSupported <;> simp [initInterview, openingText, h]
  | error e => simp [initInterview, openingText]

/-- C1: starting from session start (whichever way the opening question was
produced), every sequence of successful transcription→dialogue cycles with
non-empty user text appends exactly one user turn then one system turn per
cycle, so the conversation is the opening system turn followed by the
alternating cycle turns, its length is `1 + 2·k` after `k` cycles, and the
speakers strictly alternate starting with the system. -/
theorem growth_and_alternation (env : Env) (u : UserInfo) (opening : Except Unit String)
    (cycles : List (String × String))
    (hne : ∀ c ∈ cycles, ¬ jsTrim (Prod.fst c) = "") :
    (runCycles env cycles (initInterview env u opening initialState).1).conversation =
        [⟨Speaker.bot, openingText u opening⟩] ++ cycleTurns cycles ∧
    (runCycles env cycles (initInterview env u opening initialState).1).conversation.length =
        1 + 2 * cycles.length ∧
    alternates Speaker.bot
      (runCycles env cycles (initInterview env u opening initialState).1).conversation = true := by
  have hconv : (runCycles env cycles (initInterview env u opening initialState).1).conversation =
      [⟨Speaker.bot, openingText u opening⟩] ++ cycleTurns cycles := by
    rw [runCycles_conversation env cycles _ hne, initInterview_conversation]
  refine ⟨hconv, ?_, ?_⟩
  · rw [hconv]; simp [cycleTurns_length]; ring
  · rw [hconv]
    simp [alternates, otherSpeaker, alternates_user_cycleTurns]

/-- C1 witness: one concrete cycle after a successful opening. -/
theorem growth_and_alternation_witness :
    (runCycles envAll [("I built dashboards", "Which stack did you use?")]
        (initInterview envAll uAna (Except.ok "Tell me about yourself.") initialState).1).conversation =
        [⟨Speaker.bot, openingText uAna (Except.ok "Tell me about yourself.")⟩] ++
          cycleTurns [("I built dashboards", "Which stack did you use?")] ∧
    (runCycles envAll [("I built dashboards", "Which stack did you use?")]
        (initInterview envAll uAna (Except.ok "Tell me about yourself.") initialState).1).conversation.length =
        1 + 2 * ([("I built dashboards", "Which stack did you use?")] : List (String × String)).length ∧
    alternates Speaker.bot
      (runCycles envAll [("I built dashboards", "Which stack did you use?")]
        (initInterview envAll uAna (Except.ok "Tell me about yourself.") initialState).1).conversation = true :=
  growth_and_alternation envAll uAna (Except.ok "Tell me about yourself.")
    [("I built dashboards", "Which stack did you use?")] (by decide)

/-- C2: while the bot is speaking or a dialogue request is loading
(status Speaking or Processing), `toggleListening` changes nothing: state
unchanged, no service call made, nothing scheduled. -/
theorem startListening_noop_when_busy (env : Env) (s : SessionState)
    (h : status s = Status.processing ∨ status s = Status.speaking) :
    toggleListening env s = (s, [], none) := by
  have hb : s.isBotSpeaking = true ∨ s.isLoading = true := by
    rcases h with h | h <;>
      · unfold status at h
        by_cases h1 : s.isBotSpeaking
        · exact Or.inl h1
        · by_cases h2 : s.isLoading
          · exact Or.inr h2
          · simp [h1, h2] at h
            split at h <;> simp_all
  unfold toggleListening
  rcases hb with hb | hb <;> simp [hb]

/-- C2 witness: concrete busy state (dialogue request loading). -/
theorem startListening_noop_when_busy_witness :
    toggleListening envAll { initialState with isLoading := true } =
      ({ initialState with isLoading := true }, [], none) :=
  startListening_noop_when_busy envAll { initialState with isLoading := true }
    (Or.inl (by decide))

/-- C3: when the opening-question request rejects, the conversation becomes
exactly one system turn carrying the fallback template instantiated with
the profile's name and position; for the spec's example profile the text is
the exact example sentence. -/
theorem fallback_opening_turn (env : Env) (u : UserInfo) (s : SessionState) :
    (initInterview env u (Except.error ()) s).1.conversation =
      [⟨Speaker.bot, fallbackQuestion u⟩] ∧
    fallbackQuestion ⟨"Ana", "Backend Engineer", "5 years", "none"⟩ =
      "Hello Ana, thanks for joining this interview for the Backend Engineer position. Could you tell me about your background and experience?" :=
  ⟨rfl, rfl⟩

/-- C4 counterexample: with speech output supported, a dialogue-service
failure at session start makes no speech-output call at all (the call list
is exactly the dialogue calls plus the console log) and ends at Idle, not
Speaking — so the fallback greeting is never spoken, contradicting the
claim. -/
theorem fallback_not_spoken_counterexample :
    envAll.synthesisSupported = true ∧
    (initInterview envAll uAna (Except.error ()) initialState).2 =
      [Call.resetConversation, Call.initWithUserInfo uAna, Call.generateInitialQuestion,
        Call.consoleError] ∧
    status (initInterview envAll uAna (Except.error ()) initialState).1 = Status.idle :=
  ⟨rfl, rfl, rfl⟩

/-- C4 (amended): when the opening question comes from a successful
dialogue response, the controller speaks it and enters Speaking if speech
output is supported, else goes directly to Idle; the fallback greeting
after a dialogue failure is never spoken and the controller goes directly
to Idle even when speech output is supported. -/
theorem opening_speak_policy (env : Env) (u : UserInfo) (q : String) (s : SessionState)
    (hb : s.isBotSpeaking = false) (hl : s.isListening = false) :
    (env.synthesisSupported = true →
        (initInterview env u (Except.ok q) s).2 =
          [Call.resetConversation, Call.initWithUserInfo u, Call.generateInitialQuestion,
            Call.speak q] ∧
        status (initInterview env u (Except.ok q) s).1 = Status.speaking) ∧
    (env.synthesisSupported = false →
        (initInterview env u (Except.ok q) s).2 =
          [Call.resetConversation, Call.initWithUserInfo u, Call.generateInitialQuestion] ∧
        status (initInterview env u (Except.ok q) s).1 = Status.idle) ∧
    (initInterview env u (Except.error ()) s).2 =
        [Call.resetConversation, Call.initWithUserInfo u, Call.generateInitialQuestion,
          Call.consoleError] ∧
    status (initInterview env u (Except.error ()) s).1 = Status.idle := by
  refine ⟨fun hs => ?_, fun hs => ?_, ?_, ?_⟩ <;>
    simp [initInterview, status, hb, hl] <;> simp_all

/-- C4 (amended) witness: successful opening, speech supported. -/
theorem opening_speak_policy_witness :
    ((envAll.synthesisSupported = true →
        (initInterview envAll uAna (Except.ok "Q0") initialState).2 =
          [Call.resetConversation, Call.initWithUserInfo uAna, Call.generateInitialQuestion,
            Call.speak "Q0"] ∧
        status (initInterview envAll uAna (Except.ok "Q0") initialState).1 = Status.speaking) ∧
    (envAll.synthesisSupported = false →
        (initInterview envAll uAna (Except.ok "Q0") initialState).2 =
          [Call.resetConversation, Call.initWithUserInfo uAna, Call.generateInitialQuestion] ∧
        status (initInterview envAll uAna (Except.ok "Q0") initialState).1 = Status.idle) ∧
    (initInterview envAll uAna (Except.error ()) initialState).2 =
        [Call.resetConversation, Call.initWithUserInfo uAna, Call.generateInitialQuestion,
          Call.consoleError] ∧
    status (initInterview envAll uAna (Except.error ()) initialState).1 = Status.idle) :=
  opening_speak_policy envAll uAna "Q0" initialState (by decide) (by decide)

/-- C5: a transcript that trims to the empty string leaves the whole state
(conversation and status included) untouched and makes no service call. -/
theorem empty_transcript_noop (env : Env) (next : Except Unit String) (text : String)
    (s : SessionState) (h : jsTrim text = "") :
    handleTranscript env next text s = (s, []) ∧
    status (handleTranscript env next text s).1 = status s := by
  unfold handleTranscript
  simp [h]

/-- C5 witness: whitespace-only transcript while listening. -/
theorem empty_transcript_noop_witness :
    handleTranscript envAll (Except.ok "Q1") "   " { initialState with isListening := true } =
      ({ initialState with isListening := true }, []) ∧
    status (handleTranscript envAll (Except.ok "Q1") "   "
        { initialState with isListening := true }).1 =
      status { initialState with isListening := true } :=
  empty_transcript_noop envAll (Except.ok "Q1") "   "
    { initialState with isListening := true } (by decide)

/-- C6: when the follow-up request rejects, the conversation keeps exactly
the user turn appended before the request (no system turn added), the
error is only logged to the console (the displayed bot response is
unchanged and no speech-output call is made), and the status returns to
Idle. -/
theorem followup_failure_recovery (env : Env) (text : String) (s : SessionState)
    (ht : ¬ jsTrim text = "") (hb : s.isBotSpeaking = false) :
    (handleTranscript env (Except.error ()) text s).1.conversation =
        s.conversation ++ [⟨Speaker.user, text⟩] ∧
    (handleTranscript env (Except.error ()) text s).1.botResponse = s.botResponse ∧
    (handleTranscript env (Except.error ()) text s).2 =
        (if s.isListening then [Call.stopListening] else []) ++
          [Call.generateNextQuestion text, Call.consoleError] ∧
    status (handleTranscript env (Except.error ()) text s).1 = Status.idle := by
  unfold handleTranscript
  cases h : s.isListening <;> simp [ht, h, status, hb]

/-- C6 witness: follow-up failure while listening after a non-empty
transcript. -/
theorem followup_failure_recovery_witness :
    (handleTranscript envAll (Except.error ()) "I mentor juniors"
        { initialState with isListening := true }).1.conversation =
        initialState.conversation ++ [⟨Speaker.user, "I mentor juniors"⟩] ∧
    (handleTranscript envAll (Except.error ()) "I mentor juniors"
        { initialState with isListening := true }).1.botResponse = initialState.botResponse ∧
    (handleTranscript envAll (Except.error ()) "I mentor juniors"
        { initialState with isListening := true }).2 =
        (if ({ initialState with isListening := true } : SessionState).isListening then
            [Call.stopListening] else []) ++
          [Call.generateNextQuestion "I mentor juniors", Call.consoleError] ∧
    status (handleTranscript envAll (Except.error ()) "I mentor juniors"
        { initialState with isListening := true }).1 = Status.idle :=
  followup_failure_recovery envAll "I mentor juniors"
    { initialState with isListening := true } (by decide) (by decide)

/-- C7 counterexample: there is no stale-callback guard.  At a concrete
post-teardown moment (`handleEndInterview` leaves the component state
untouched), a late transcription callback with non-empty text still
appends to the conversation, contradicting the claim's second conjunct. -/
theorem stale_callback_mutates :
    (handleEndInterview envAll teardownState).1 = teardownState ∧
    ¬ (handleTranscript envAll (Except.ok "And then?") "I led a team"
        (handleEndInterview envAll teardownState).1).1.conversation =
      teardownState.conversation := by
  refine ⟨rfl, ?_⟩
  decide

/-- C7 (amended): ending the session always calls transcription-stop first
and the end-session callback last (so stop precedes the callback), and it
mutates no component state; but the code has no stale-callback guard, so a
late non-empty transcription result delivered to `handleTranscript` still
appends a user turn (see the counterexample). -/
theorem end_interview_ordering (env : Env) (s : SessionState) :
    (handleEndInterview env s).2.head? = some Call.stopListening ∧
    (handleEndInterview env s).2.getLast? = some Call.onEndInterview ∧
    (handleEndInterview env s).1 = s := by
  cases h : env.synthesisSupported <;> simp [handleEndInterview, h]

/-- C8: with speech recognition unsupported, starting to listen from Idle
schedules delivery of the fixed canned transcript after the fixed 3000 ms
delay to the same `handleTranscript` handler, so the pipeline then runs as
in the supported case: the user turn and the dialogue response are
appended, the dialogue service is called with the canned text, and the
response is spoken when synthesis is supported. -/
theorem mock_transcript_pipeline (env : Env) (q : String) (s : SessionState)
    (hr : env.recognitionSupported = false) (hb : s.isBotSpeaking = false)
    (hl : s.isLoading = false) (hni : s.isListening = false) :
    toggleListening env s =
      ({ s with isListening := true }, [], some (mockDelayMs, mockTranscript)) ∧
    (handleTranscript env (Except.ok q) mockTranscript
        { s with isListening := true }).1.conversation =
      s.conversation ++ [⟨Speaker.user, mockTranscript⟩, ⟨Speaker.bot, q⟩] ∧
    Call.generateNextQuestion mockTranscript ∈
      (handleTranscript env (Except.ok q) mockTranscript { s with isListening := true }).2 ∧
    (env.synthesisSupported = true →
      Call.speak q ∈
        (handleTranscript env (Except.ok q) mockTranscript { s with isListening := true }).2) := by
  have htrim : ¬ jsTrim mockTranscript = "" := by decide
  refine ⟨?_, ?_, ?_, fun hs => ?_⟩
  · unfold toggleListening
    simp [hr, hb, hl, hni]
  · have := handleTranscript_ok_conversation env q mockTranscript
      { s with isListening := true } htrim
    simpa using this
  · unfold handleTranscript
    cases hs : env.synthesisSupported <;> simp [htrim, hs]
  · unfold handleTranscript
    simp [htrim, hs]

/-- C8 witness: recognition unsupported, concrete idle state. -/
theorem mock_transcript_pipeline_witness :
    toggleListening envNoRecog initialState =
      ({ initialState with isListening := true }, [], some (mockDelayMs, mockTranscript)) ∧
    (handleTranscript envNoRecog (Except.ok "Q1") mockTranscript
        { initialState with isListening := true }).1.conversation =
      initialState.conversation ++ [⟨Speaker.user, mockTranscript⟩, ⟨Speaker.bot, "Q1"⟩] ∧
    Call.generateNextQuestion mockTranscript ∈
      (handleTranscript envNoRecog (Except.ok "Q1") mockTranscript
        { initialState with isListening := true }).2 ∧
    (envNoRecog.synthesisSupported = true →
      Call.speak "Q1" ∈
        (handleTranscript envNoRecog (Except.ok "Q1") mockTranscript
          { initialState with isListening := true }).2) :=
  mock_transcript_pipeline envNoRecog "Q1" initialState (by decide) (by decide)
    (by decide) (by decide)

/-- C9 counterexample: for a conversation of length 2, the last index
`1 = length - 1` is offered as a pill and clicking it sets the active
index to `1`, which lies outside the claimed half-open range
`[0, length-1) = [0, 1)`. -/
theorem pill_selects_last_index :
    1 ∈ pillIndices [⟨Speaker.bot, "Q"⟩, ⟨Speaker.user, "A"⟩] ∧
    ¬ (1 < ([⟨Speaker.bot, "Q"⟩, ⟨Speaker.user, "A"⟩] : List Turn).length - 1) ∧
    (clickPill 1 { initialState with
        conversation := [⟨Speaker.bot, "Q"⟩, ⟨Speaker.user, "A"⟩] }).activeMessageIndex = 1 := by
  decide

/-- C9 (amended): every user-selectable pill index lies in the half-open
range `[0, length)` — the last index `length-1` included — and pills exist
only when the conversation has more than one turn. -/
theorem pill_indices_bound (conv : List Turn) (i : Nat) (h : i ∈ pillIndices conv) :
    i < conv.length ∧ 1 < conv.length := by
  unfold pillIndices at h
  by_cases hc : conv.length > 1
  · simp only [hc, if_true] at h
    exact ⟨List.mem_range.mp h, hc⟩
  · simp [hc] at h

/-- C9 (amended) witness: the last pill of a two-turn conversation. -/
theorem pill_indices_bound_witness :
    1 < ([⟨Speaker.bot, "Q"⟩, ⟨Speaker.user, "A"⟩] : List Turn).length ∧
    1 < ([⟨Speaker.bot, "Q"⟩, ⟨Speaker.user, "A"⟩] : List Turn).length :=
  pill_indices_bound [⟨Speaker.bot, "Q"⟩, ⟨Speaker.user, "A"⟩] 1 (by decide)

/-- C10: on an empty conversation the derived active message is `none` for
every index, so the current-turn panel is not rendered; in general the
lookup is total, returning `none` exactly when the index is out of range;
and the index-sync effect leaves the fresh (empty-conversation) state
unchanged. -/
theorem empty_conversation_safe :
    (∀ i, activeMessage [] i = none) ∧
    (∀ i, showMessagePanel [] i = false) ∧
    (∀ (conv : List Turn) (j : Nat), activeMessage conv j = none ↔ conv.length ≤ j) ∧
    syncActiveMessageIndex initialState = initialState := by
  refine ⟨fun i => rfl, fun i => rfl, fun conv j => ?_, rfl⟩
  simp [activeMessage]
